import Mathlib

/-
Verification of the tiled image cache-and-storage engine of
Engine/ImagePrivate.cpp (Natron).  Pure functions of the source are
embedded as Lean functions; stateful loops are embedded as folds with
explicit state; machine pointers become integer offsets into a linear
memory modelled as a total function.  Where a declaration of the wider
repository is not part of the embedded translation unit (RectI methods,
the Cache service, the thread pool, Image::downscaleMipMap,
Image::getChannelPointers), it is modelled from the specification and
marked as such in its doc comment.
-/

namespace NatronImage

/-- RectI: an integer rectangle, the half-open region x1 <= x < x2,
y1 <= y < y2 (Engine/RectI of the repository). -/
structure RectI where
  x1 : Int
  y1 : Int
  x2 : Int
  y2 : Int
deriving DecidableEq, Repr

/-- RectI::width. -/
def RectI.width (r : RectI) : Int := r.x2 - r.x1

/-- RectI::height. -/
def RectI.height (r : RectI) : Int := r.y2 - r.y1

/-- Modelled from the spec: RectI::intersect (not under src/), the
componentwise max/min intersection of two rectangles, exactly the form
the source writes out by hand at lines 63-66 of ImagePrivate.cpp. -/
def RectI.intersect (a b : RectI) : RectI :=
  { x1 := max a.x1 b.x1, y1 := max a.y1 b.y1, x2 := min a.x2 b.x2, y2 := min a.y2 b.y2 }

/-- RectI::isNull: an empty region. -/
def RectI.isNull (r : RectI) : Bool := r.x2 ≤ r.x1 || r.y2 ≤ r.y1

/-- Membership of the pixel (x, y) in the half-open rectangle. -/
def RectI.containsPt (r : RectI) (x y : Int) : Bool :=
  decide (r.x1 ≤ x ∧ x < r.x2 ∧ r.y1 ≤ y ∧ y < r.y2)

/-- StorageModeEnum of the source. -/
inductive StorageModeEnum where
  | eStorageModeNone
  | eStorageModeRAM
  | eStorageModeDisk
  | eStorageModeGLTex
deriving DecidableEq, Repr

/-- CacheAccessModeEnum of the source (cachePolicy values). -/
inductive CacheAccessModeEnum where
  | eCacheAccessModeNone
  | eCacheAccessModeWriteOnly
  | eCacheAccessModeReadWrite
deriving DecidableEq, Repr

/-- CacheEntryLocker::CacheEntryStatusEnum of the source. -/
inductive CacheEntryStatusEnum where
  | eCacheEntryStatusCached
  | eCacheEntryStatusMustCompute
  | eCacheEntryStatusComputationPending
deriving DecidableEq, Repr

/-- ActionRetCodeEnum, restricted to the two values the copy processors
of ImagePrivate.cpp produce. -/
inductive ActionRetCodeEnum where
  | eActionStatusOK
  | eActionStatusFailed
deriving DecidableEq, Repr

/-- ImageBitDepthEnum of the source. -/
inductive ImageBitDepthEnum where
  | eImageBitDepthByte
  | eImageBitDepthShort
  | eImageBitDepthHalf
  | eImageBitDepthFloat
  | eImageBitDepthNone
deriving DecidableEq, Repr

/-- A (mipMapLevel, useDraft) pair probed against the cache by
initTileAndFetchFromCache. -/
abbrev LookupKey : Type := Nat × Bool

/-- nMipMapLookups as computed at lines 182-190 of ImagePrivate.cpp:
one lookup for non-CPU storage, two when the requested mip level is
nonzero, one otherwise. -/
def nMipMapLookups (storage : StorageModeEnum) (mipMapLevel : Nat) : Nat :=
  if storage ≠ StorageModeEnum.eStorageModeRAM ∧ storage ≠ StorageModeEnum.eStorageModeDisk then 1
  else if mipMapLevel ≠ 0 then 2 else 1

/-- firstLookupLevel as computed at lines 182-190 of ImagePrivate.cpp:
0 for non-CPU storage, the requested mip level otherwise. -/
def firstLookupLevel (storage : StorageModeEnum) (mipMapLevel : Nat) : Nat :=
  if storage ≠ StorageModeEnum.eStorageModeRAM ∧ storage ≠ StorageModeEnum.eStorageModeDisk then 0
  else mipMapLevel

/-- nDraftLookups as computed at line 201 of ImagePrivate.cpp. -/
def nDraftLookups (isDraftImage : Bool) : Nat :=
  if isDraftImage then 2 else 1

/-- The sequence of mip levels the outer loop of lines 196-272 visits:
iteration 0 uses firstLookupLevel, later iterations use level 0. -/
def lookupMipLevels (storage : StorageModeEnum) (mipMapLevel : Nat) : List Nat :=
  (List.range (nMipMapLookups storage mipMapLevel)).map
    (fun i => if i = 0 then firstLookupLevel storage mipMapLevel else 0)

/-- The sequence of draft flags the inner loop of lines 203-231 visits:
useDraft is the cast of the loop counter draft_i. -/
def lookupDrafts (isDraftImage : Bool) : List Bool :=
  (List.range (nDraftLookups isDraftImage)).map (fun i => i == 1)

/-- The inner draft loop of lines 203-231: probe (lookupLevel, useDraft)
for each draft flag in order, stopping at the first cache hit.  Returns
the keys probed (in order, the hit included) and the hit, if any. -/
def draftLoop (cached : LookupKey → Bool) (lookupLevel : Nat) :
    List Bool → List LookupKey × Option LookupKey
  | [] => ([], none)
  | d :: ds =>
    let key : LookupKey := (lookupLevel, d)
    if cached key then ([key], some key)
    else
      let rest := draftLoop cached lookupLevel ds
      (key :: rest.1, rest.2)

/-- The outer mip-level loop of lines 196-272: run the draft loop at
each level in order, stopping as soon as a level produced a hit. -/
def mipLoop (cached : LookupKey → Bool) (drafts : List Bool) :
    List Nat → List LookupKey × Option LookupKey
  | [] => ([], none)
  | l :: ls =>
    let this := draftLoop cached l drafts
    match this.2 with
    | some k => (this.1, some k)
    | none =>
      let rest := mipLoop cached drafts ls
      (this.1 ++ rest.1, rest.2)

/-- The full fallback-ordered cache probe of initTileAndFetchFromCache
(lines 182-272): the keys probed in order, and the first hit. -/
def lookupProbeTrace (storage : StorageModeEnum) (mipMapLevel : Nat) (isDraftImage : Bool)
    (cached : LookupKey → Bool) : List LookupKey × Option LookupKey :=
  mipLoop cached (lookupDrafts isDraftImage) (lookupMipLevels storage mipMapLevel)

/-- Spec-side description of an early-exit scan: walk the candidate
list in order and stop at (and include) the first cached key.  Written
from the claim text, to be compared with the loops of the source. -/
def stopAtFirstHit (cached : LookupKey → Bool) : List LookupKey → List LookupKey
  | [] => []
  | k :: ks => if cached k then [k] else k :: stopAtFirstHit cached ks

/-- The first cached key of a candidate list, in list order. -/
def listFirstHit (cached : LookupKey → Bool) : List LookupKey → Option LookupKey
  | [] => none
  | k :: ks => if cached k then some k else listFirstHit cached ks

/-- The flat candidate list obtained by pairing every mip level with
every draft flag, mip level outermost. -/
def flatKeys (levels : List Nat) (drafts : List Bool) : List LookupKey :=
  levels.flatMap (fun l => drafts.map (fun d => (l, d)))

/-- Spec-side candidate order written from the words of claim C1:
(requested level, draft=false); then (requested level, draft=true) only
if the image is draft; then (0, false) only if the requested level is
nonzero; then (0, true) only if the image is draft. -/
def claimedLookupOrder (mipMapLevel : Nat) (isDraftImage : Bool) : List LookupKey :=
  (mipMapLevel, false) ::
    ((if isDraftImage then [(mipMapLevel, true)] else []) ++
      (if mipMapLevel ≠ 0 then
        ((0, false) :: (if isDraftImage then [(0, true)] else []))
      else []))

/-- Spec-side candidate order for non-CPU (GPU-texture) storage, written
for the amended claim C2: a single mip level, level 0, with the usual
draft progression. -/
def claimedOrderGPU (isDraftImage : Bool) : List LookupKey :=
  if isDraftImage then [(0, false), (0, true)] else [(0, false)]

/-- A linear pixel memory of unsigned integer samples (byte or short
depth): the C pointer arithmetic of the kernels becomes integer offsets
into this total function.  Offsets outside the allocated region hold
arbitrary values, which models what an out-of-bounds read of the C code
may return. -/
def PixMem : Type := Int → Nat

/-- Pointwise update of a pixel memory at one offset. -/
def memUpd (m : PixMem) (i : Int) (v : Nat) : PixMem :=
  fun j => if j = i then v else m j

/-- Pointwise update of a per-channel pointer array. -/
def ptrUpd (f : Nat → Int) (k : Nat) (v : Int) : Nat → Int :=
  fun j => if j = k then v else f j

/-- Modelled from the spec: Image::getChannelPointers (not under src/)
for a packed buffer positions channel k's pointer at the element of
pixel (x, y) inside the rectangle bounds, with a pixel stride equal to
the component count: offset ((y - y1) * width + (x - x1)) * stride + k
from the start of the buffer. -/
def getChannelPtr (x y : Int) (bounds : RectI) (stride : Int) (k : Nat) : Int :=
  ((y - bounds.y1) * bounds.width + (x - bounds.x1)) * stride + (k : Int)

/-- State threaded through the scan-line loops of
halveImageForInternal: the per-channel source and destination pointers
and the destination memory being written. -/
structure HalveSt where
  srcPtrs : Nat → Int
  dstPtrs : Nat → Int
  dst : PixMem

/-- The per-component body of halveImageForInternal (lines 814-832):
read the up-to-four source samples a, b, c, d (an unpicked sample reads
as 0), store their sum divided by the in-bounds count, then advance this
component's source pointer by two pixels and its destination pointer by
one pixel. -/
def halveChanBody (srcMem : PixMem) (srcStride srcRowElems dstStride : Int)
    (pickThisCol pickNextCol pickThisRow pickNextRow : Bool) (sum : Nat)
    (st : HalveSt) (k : Nat) : HalveSt :=
  let sp := st.srcPtrs k
  let a : Nat := if pickThisCol && pickThisRow then srcMem sp else 0
  let b : Nat := if pickNextCol && pickThisRow then srcMem (sp + srcStride) else 0
  let c : Nat := if pickThisCol && pickNextRow then srcMem (sp + srcRowElems) else 0
  let d : Nat := if pickNextCol && pickNextRow then srcMem (sp + srcRowElems + srcStride) else 0
  { srcPtrs := ptrUpd st.srcPtrs k (sp + srcStride * 2)
    dstPtrs := ptrUpd st.dstPtrs k (st.dstPtrs k + dstStride)
    dst := memUpd st.dst (st.dstPtrs k) ((a + b + c + d) / sum) }

/-- The list of integers a, a+1, ..., b-1: the index set of a C for
loop from a while < b. -/
def intRange (a b : Int) : List Int :=
  (List.range (b - a).toNat).map (fun i => a + (i : Int))

/-- The per-pixel body of halveImageForInternal (lines 799-834): decide
which source columns are in bounds for destination column x, then run
the component loop. -/
def halveXBody (srcMem : PixMem) (srcBounds : RectI) (nComps : Nat)
    (pickThisRow pickNextRow : Bool) (st : HalveSt) (x : Int) : HalveSt :=
  let srcx := x * 2
  let pickThisCol := decide (srcBounds.x1 ≤ srcx ∧ srcx < srcBounds.x2)
  let pickNextCol := decide (srcBounds.x1 ≤ srcx + 1 ∧ srcx + 1 < srcBounds.x2)
  let sumW : Nat := (if pickThisCol then 1 else 0) + (if pickNextCol then 1 else 0)
  let sumH : Nat := (if pickThisRow then 1 else 0) + (if pickNextRow then 1 else 0)
  let sum := sumW * sumH
  (List.range nComps).foldl
    (halveChanBody srcMem (nComps : Int) (srcBounds.width * (nComps : Int)) (nComps : Int)
      pickThisCol pickNextCol pickThisRow pickNextRow sum)
    st

/-- The per-scan-line body of halveImageForInternal (lines 787-841):
decide which source rows are in bounds for destination row y, run the
pixel loop over the destination row, then apply the source-code row
fixups to every channel pointer: the destination pointer gains
dstRowElementsCount - dstWidth * dstPixelStride and the source pointer
gains srcRowElementsCount * 2 - dstWidth * srcPixelStride, exactly the
expressions of lines 837-840. -/
def halveYBody (srcMem : PixMem) (srcBounds dstBounds : RectI) (nComps : Nat)
    (st : HalveSt) (y : Int) : HalveSt :=
  let srcy := y * 2
  let pickThisRow := decide (srcBounds.y1 ≤ srcy ∧ srcy < srcBounds.y2)
  let pickNextRow := decide (srcBounds.y1 ≤ srcy + 1 ∧ srcy + 1 < srcBounds.y2)
  let st1 := (intRange dstBounds.x1 dstBounds.x2).foldl
    (halveXBody srcMem srcBounds nComps pickThisRow pickNextRow) st
  let dstRowElems := dstBounds.width * (nComps : Int)
  let srcRowElems := srcBounds.width * (nComps : Int)
  { srcPtrs := fun k => st1.srcPtrs k + (srcRowElems * 2 - dstBounds.width * (nComps : Int))
    dstPtrs := fun k => st1.dstPtrs k + (dstRowElems - dstBounds.width * (nComps : Int))
    dst := st1.dst }

/-- halveImageForInternal (lines 767-842) for an unsigned integer depth
with nComps packed components: starting from per-channel pointers at the
origin of each rectangle, average each destination pixel from the
in-bounds members of its 2x2 source group, walking the pointers exactly
as the source does, and return the destination memory. -/
def halveImageForInternalN (nComps : Nat) (srcMem : PixMem) (srcBounds : RectI)
    (dstMem : PixMem) (dstBounds : RectI) : PixMem :=
  let st0 : HalveSt :=
    { srcPtrs := fun k => getChannelPtr srcBounds.x1 srcBounds.y1 srcBounds (nComps : Int) k
      dstPtrs := fun k => getChannelPtr dstBounds.x1 dstBounds.y1 dstBounds (nComps : Int) k
      dst := dstMem }
  ((intRange dstBounds.y1 dstBounds.y2).foldl
    (halveYBody srcMem srcBounds dstBounds nComps) st0).dst

/-- A tile-channel pixel buffer: its bounds and its linear memory. -/
structure TileBuffer where
  bounds : RectI
  mem : PixMem

/-- Modelled from the spec: the bounds of one mip-map octave below, the
smallest enclosing half-resolution rectangle (floor for the lower
corner, ceiling for the upper corner). -/
def halvedBounds (r : RectI) : RectI :=
  { x1 := Int.fdiv r.x1 2, y1 := Int.fdiv r.y1 2
    x2 := Int.fdiv (r.x2 + 1) 2, y2 := Int.fdiv (r.y2 + 1) 2 }

/-- One octave of downscaling of a tile buffer: the halve Pixel Kernel
of the source applied once, into a fresh zero buffer at the halved
bounds. -/
def halveTileBuffer (nComps : Nat) (tb : TileBuffer) : TileBuffer :=
  let db := halvedBounds tb.bounds
  { bounds := db
    mem := halveImageForInternalN nComps tb.mem tb.bounds (fun _ => 0) db }

/-- Modelled from the spec: Image::downscaleMipMap (not under src/)
synthesizes a mip level by applying the Pixel Kernels' halve operation
once per octave. -/
def downscaleMipMap (nComps levels : Nat) (tb : TileBuffer) : TileBuffer :=
  (halveTileBuffer nComps)^[levels] tb

/-- The fetch part of initTileAndFetchFromCache for one channel (lines
177-278), with the cache modelled as a map from (level, draft) keys to
the optional cached buffer: run the fallback-ordered probe; on a hit at
a level other than firstLookupLevel and CPU storage, downscale the hit
by firstLookupLevel - lookupLevel octaves (lines 232-271); with no hit
the channel stays empty (must compute). -/
def fetchTileResult (storage : StorageModeEnum) (mipMapLevel : Nat) (isDraftImage : Bool)
    (nComps : Nat) (cachedAt : LookupKey → Option TileBuffer) : Option TileBuffer :=
  let cachedB : LookupKey → Bool := fun k => (cachedAt k).isSome
  match (lookupProbeTrace storage mipMapLevel isDraftImage cachedB).2 with
  | none => none
  | some k =>
    match cachedAt k with
    | none => none
    | some buf =>
      if (storage = StorageModeEnum.eStorageModeRAM
            ∨ storage = StorageModeEnum.eStorageModeDisk)
          ∧ k.1 ≠ firstLookupLevel storage mipMapLevel then
        some (downscaleMipMap nComps (firstLookupLevel storage mipMapLevel - k.1) buf)
      else
        some buf

/-- The 3x3 constant-value byte source of the specification's halve
example: value 4 inside the nine allocated elements, 0 (an arbitrary
out-of-bounds content) elsewhere. -/
def halveExampleSrc : PixMem :=
  fun i => if 0 ≤ i ∧ i < 9 then 4 else 0

/-- A concrete level-0 cached tile buffer used to witness the downscale
path: a 2x2 mono-channel tile holding the value 8. -/
def demoLevel0Buf : TileBuffer :=
  { bounds := { x1 := 0, y1 := 0, x2 := 2, y2 := 2 }
    mem := fun i => if 0 ≤ i ∧ i < 4 then 8 else 0 }

/-- A concrete cache content with a hit only at (level 0, draft false),
holding demoLevel0Buf. -/
def demoCacheAt : LookupKey → Option TileBuffer :=
  fun k => if k = ((0 : Nat), false) then some demoLevel0Buf else none

/-- A floating-point sample as the NaN-scan kernel observes it: a
finite rational, an infinity, or NaN.  Only NaN fails the self-equality
test the source uses. -/
inductive FloatVal where
  | finite (q : Rat)
  | posInf
  | negInf
  | nan
deriving DecidableEq, Repr

/-- The self-inequality NaN test of line 916: v != v holds exactly for
NaN. -/
def FloatVal.selfNeq : FloatVal → Bool
  | FloatVal.nan => true
  | _ => false

/-- A linear memory of float samples for the NaN-scan kernel. -/
def FloatMem : Type := Int → FloatVal

/-- Pointwise update of a float memory at one offset. -/
def fmemUpd (m : FloatMem) (i : Int) (v : FloatVal) : FloatMem :=
  fun j => if j = i then v else m j

/-- State threaded through the loops of checkForNaNsInternal: the
per-channel pointers, the buffer, and the hasnan accumulator. -/
structure NanSt where
  ptrs : Nat → Int
  mem : FloatMem
  hasnan : Bool

/-- The per-component body of checkForNaNsInternal (lines 913-921),
exactly as written in the source: only when the sample fails the
self-equality test is it overwritten with 1.0, the channel pointer
advanced by one element and hasnan set; otherwise nothing at all is
done to the pointer. -/
def nanChanBody (st : NanSt) (k : Nat) : NanSt :=
  let p := st.ptrs k
  if (st.mem p).selfNeq then
    { ptrs := ptrUpd st.ptrs k (p + 1)
      mem := fmemUpd st.mem p (FloatVal.finite 1)
      hasnan := true }
  else st

/-- The per-scan-line body of checkForNaNsInternal (lines 911-927): the
pixel loop over the region's columns running the component loop, then
the row fixup ptrs[k] += rowElementsCount - roiWidth * pixelStride of
line 925. -/
def nanRowBody (bounds roi : RectI) (nComps : Nat) (st : NanSt) (_y : Int) : NanSt :=
  let st1 := (intRange roi.x1 roi.x2).foldl
    (fun s _x => (List.range nComps).foldl nanChanBody s) st
  let rowElems := bounds.width * (nComps : Int)
  { st1 with ptrs := fun k => st1.ptrs k + (rowElems - roi.width * (nComps : Int)) }

/-- checkForNaNsInternal (lines 898-930) for a packed float buffer with
nComps components: pointers start at pixel (roi.x1, roi.y1) of the
buffer laid out over bounds; returns whether any replacement occurred
together with the resulting buffer. -/
def checkForNaNsInternalN (nComps : Nat) (bounds roi : RectI) (mem : FloatMem) :
    Bool × FloatMem :=
  let st0 : NanSt :=
    { ptrs := fun k => getChannelPtr roi.x1 roi.y1 bounds (nComps : Int) k
      mem := mem
      hasnan := false }
  let st1 := (intRange roi.y1 roi.y2).foldl (nanRowBody bounds roi nComps) st0
  (st1.hasnan, st1.mem)

/-- The two-sample float buffer of the C4 failing input: a non-NaN 0.0
at offset 0 followed by a NaN at offset 1. -/
def nanExampleMem : FloatMem :=
  fun i => if i = 1 then FloatVal.nan else FloatVal.finite 0

/-- ImageTileKey (Engine/ImageTileKey of the repository): the immutable
cache identity of one tile channel, built at lines 157-163 and 207-213
from the node hash, the channel name (numbered here), the proxy scale,
the mip level, the draft flag, the bit depth and the tile bounds. -/
structure ImageTileKey where
  nodeHash : Nat
  channelID : Nat
  proxyScale : Rat × Rat
  mipMapLevel : Nat
  draft : Bool
  bitdepth : ImageBitDepthEnum
  tileBounds : RectI
deriving DecidableEq, Repr

/-- Modelled from the spec: the external Cache Service, a set of keyed
entries; probe reports cached when the key is present and grants
must-compute otherwise, and remove deletes the key (spec section 6). -/
structure CacheModel where
  entries : Finset ImageTileKey

/-- Modelled from the spec: the status the Cache Service's locker
reports to a prober of the given key. -/
def CacheModel.probeStatus (c : CacheModel) (k : ImageTileKey) : CacheEntryStatusEnum :=
  if k ∈ c.entries then CacheEntryStatusEnum.eCacheEntryStatusCached
  else CacheEntryStatusEnum.eCacheEntryStatusMustCompute

/-- Modelled from the spec: Cache::removeEntry. -/
def CacheModel.removeEntry (c : CacheModel) (k : ImageTileKey) : CacheModel :=
  { entries := c.entries.erase k }

/-- The write-only pre-step of initTileAndFetchFromCache (lines
167-174): when the cache policy is WriteOnly, probe the cache at the
requested-scale key and, if an entry is already cached there, remove
it. -/
def writeOnlyRemoveStep (cachePolicy : CacheAccessModeEnum) (cache : CacheModel)
    (requestedKey : ImageTileKey) : CacheModel :=
  if cachePolicy = CacheAccessModeEnum.eCacheAccessModeWriteOnly then
    if cache.probeStatus requestedKey = CacheEntryStatusEnum.eCacheEntryStatusCached then
      cache.removeEntry requestedKey
    else cache
  else cache

/-- A concrete tile key used to witness the cache-protocol theorems. -/
def demoTileKey : ImageTileKey :=
  { nodeHash := 7, channelID := 0, proxyScale := (1, 1), mipMapLevel := 0
    draft := false, bitdepth := ImageBitDepthEnum.eImageBitDepthFloat
    tileBounds := { x1 := 0, y1 := 0, x2 := 32, y2 := 32 } }

/-- The per-channel state insertTilesInCache observes: the outstanding
entry locker (modelled by the status it reports, none when no locker is
held) and whether the channel's buffer is allocated. -/
structure MonoChannelTileState where
  entryLocker : Option CacheEntryStatusEnum
  bufferAllocated : Bool
deriving DecidableEq, Repr

/-- The per-channel body of insertTilesInCache (lines 367-384): skip a
channel with no locker; insert when the status is must-compute, the
buffer is allocated and the render was not aborted; afterwards clear
the locker unless the status is computation-pending.  Returns the new
channel state and whether an insertion was performed. -/
def insertChannelInCache (renderAborted : Bool) (ch : MonoChannelTileState) :
    MonoChannelTileState × Bool :=
  match ch.entryLocker with
  | none => (ch, false)
  | some status =>
    let inserted := (status == CacheEntryStatusEnum.eCacheEntryStatusMustCompute)
        && ch.bufferAllocated && !renderAborted
    let newLocker : Option CacheEntryStatusEnum :=
      if status ≠ CacheEntryStatusEnum.eCacheEntryStatusComputationPending then none
      else some status
    ({ entryLocker := newLocker, bufferAllocated := ch.bufferAllocated }, inserted)

/-- insertTilesInCache (lines 348-387): the double loop over tiles and
channels applying the per-channel body. -/
def insertTilesInCache (renderAborted : Bool)
    (tiles : List (List MonoChannelTileState)) :
    List (List (MonoChannelTileState × Bool)) :=
  tiles.map (fun t => t.map (insertChannelInCache renderAborted))

/-- The CacheImageTileStorage the cachedBuffer local of
initTileAndFetchFromCache may point to, reduced to the key it
carries. -/
structure CacheImageTileStorageModel where
  key : Option ImageTileKey
deriving DecidableEq, Repr

/-- The value of the cachedBuffer local after the allocation switch of
lines 102-141: it is reset only in the eStorageModeDisk branch; the RAM
and GL-texture branches store their buffer in thisChannelTile.buffer
and leave cachedBuffer null. -/
def cachedBufferAfterAlloc (storage : StorageModeEnum) :
    Option CacheImageTileStorageModel :=
  match storage with
  | StorageModeEnum.eStorageModeDisk => some { key := none }
  | _ => none

/-- Outcome of a statement that may dereference a null pointer. -/
inductive SetKeyOutcome where
  | ok (buffer : Option CacheImageTileStorageModel)
  | nullPointerDeref
deriving DecidableEq, Repr

/-- The key assignment of lines 154-165: when the cache policy is not
None, build the requested-scale key and call setKey through the
cachedBuffer pointer; calling through a null cachedBuffer is a null
pointer dereference. -/
def setRequestedScaleKey (cachePolicy : CacheAccessModeEnum)
    (cachedBuffer : Option CacheImageTileStorageModel) (key : ImageTileKey) :
    SetKeyOutcome :=
  if cachePolicy = CacheAccessModeEnum.eCacheAccessModeNone then SetKeyOutcome.ok cachedBuffer
  else
    match cachedBuffer with
    | none => SetKeyOutcome.nullPointerDeref
    | some _ => SetKeyOutcome.ok (some { key := some key })

/-- TileCoord: the lower-left corner of a tile's nominal grid cell,
used as the key of the image's tile map. -/
structure TileCoord where
  tx : Int
  ty : Int
deriving DecidableEq, Repr

/-- The tile map of an image, reduced to what the copy processors read
from it: each tile's bounds, keyed by coordinate. -/
def TileMapModel : Type := List (TileCoord × RectI)

/-- TileMap::find: the bounds of the tile at a coordinate, if the
coordinate is present in the map. -/
def findTile : TileMapModel → TileCoord → Option RectI
  | [], _ => none
  | (c2, tb) :: rest, c => if c2 = c then some tb else findTile rest c

/-- The per-partition tile loop of
CopyUntiledToTileProcessor::multiThreadFunction (lines 554-567): walk
the partition's tile coordinates in order; a coordinate missing from
the tile map returns eActionStatusFailed at once, aborting the
partition's remaining tiles; otherwise record the rectangle copy over
tileBounds intersected with the requested roi. -/
def processTileRange (tiles : TileMapModel) (roi : RectI) :
    List TileCoord → ActionRetCodeEnum × List (TileCoord × RectI)
  | [] => (ActionRetCodeEnum.eActionStatusOK, [])
  | c :: cs =>
    match findTile tiles c with
    | none => (ActionRetCodeEnum.eActionStatusFailed, [])
    | some tb =>
      let rest := processTileRange tiles roi cs
      (rest.1, (c, tb.intersect roi) :: rest.2)

/-- Modelled from the spec: ImageMultiThreadProcessorBase::getThreadRange
(not under src/) partitions the index range [0, n) into contiguous
per-thread ranges. -/
def getThreadRange (threadID nThreads n : Nat) : Nat × Nat :=
  (threadID * n / nThreads, (threadID + 1) * n / nThreads)

/-- CopyUntiledToTileProcessor::multiThreadFunction (lines 541-569):
compute the thread's index range, return OK at once when it is empty,
otherwise run the partition's tile loop over that slice of the tile
index list. -/
def multiThreadFunctionUntiledToTiled (tiles : TileMapModel) (roi : RectI)
    (tileIndices : List TileCoord) (threadID nThreads : Nat) :
    ActionRetCodeEnum × List (TileCoord × RectI) :=
  let r := getThreadRange threadID nThreads tileIndices.length
  if r.2 ≤ r.1 then (ActionRetCodeEnum.eActionStatusOK, [])
  else processTileRange tiles roi ((tileIndices.drop r.1).take (r.2 - r.1))

/-- Modelled from the spec: MultiThreadProcessorBase::launchThreads (not
under src/) runs all partitions synchronously and the copy blocks until
they complete; the aggregated status is failed when any partition
reported failure, and the rectangle copies of all partitions are
collected. -/
def launchThreadsUntiledToTiled (tiles : TileMapModel) (roi : RectI)
    (tileIndices : List TileCoord) (nThreads : Nat) :
    ActionRetCodeEnum × List (TileCoord × RectI) :=
  (List.range nThreads).foldl
    (fun acc tid =>
      let r := multiThreadFunctionUntiledToTiled tiles roi tileIndices tid nThreads
      (if r.1 = ActionRetCodeEnum.eActionStatusFailed then ActionRetCodeEnum.eActionStatusFailed
       else acc.1,
       acc.2 ++ r.2))
    (ActionRetCodeEnum.eActionStatusOK, [])

/-- The fields of ImagePrivate that copyUntiledImageToTiledImage
reads. -/
structure TiledImageState where
  tiles : TileMapModel
  tileSizeX : Int
  tileSizeY : Int
  boundsRoundedToTile : RectI

/-- Modelled from the spec: RectI::roundToTileSize (not under src/)
enlarges a rectangle to tile-size multiples, flooring the lower corner
and ceiling the upper corner to multiples of the tile size. -/
def roundToTileSize (r : RectI) (tsx tsy : Int) : RectI :=
  { x1 := tsx * Int.fdiv r.x1 tsx
    y1 := tsy * Int.fdiv r.y1 tsy
    x2 := tsx * Int.fdiv (r.x2 + tsx - 1) tsx
    y2 := tsy * Int.fdiv (r.y2 + tsy - 1) tsy }

/-- ImagePrivate::getTilesCoordinates (lines 390-405): the empty
rectangle for an empty tile map, otherwise the requested pixel
rectangle rounded to the tile size and intersected with the image's
bounds rounded to the tile size. -/
def getTilesCoordinates (st : TiledImageState) (pixelCoordinates : RectI) : RectI :=
  if st.tiles.isEmpty then { x1 := 0, y1 := 0, x2 := 0, y2 := 0 }
  else (roundToTileSize pixelCoordinates st.tileSizeX st.tileSizeY).intersect
    st.boundsRoundedToTile

/-- The index list of a C for loop from a while < b stepping by s. -/
def intStepRange (a b s : Int) : List Int :=
  (List.range (Int.toNat (Int.fdiv (b - a + s - 1) s))).map (fun i => a + s * (i : Int))

/-- The tile coordinate enumeration of lines 595-602: rows of the tile
rectangle stepped by the tile height, columns stepped by the tile
width, row-major. -/
def tileIndicesOf (tilesRect : RectI) (tsx tsy : Int) : List TileCoord :=
  (intStepRange tilesRect.y1 tilesRect.y2 tsy).flatMap
    (fun ty => (intStepRange tilesRect.x1 tilesRect.x2 tsx).map
      (fun tx => { tx := tx, ty := ty }))

/-- ImagePrivate::copyUntiledImageToTiledImage (lines 572-623) for
CPU-addressable source and destination storage (the parallel branch of
lines 605-610): compute the tile rectangle, return at once when it is
null, otherwise enumerate the tile coordinates and launch the parallel
processor.  The C++ function returns void and casts the launchThreads
status to (void) at line 610, so the status the caller observes is OK
on every path; the second component records exactly that observable
outcome, the first the rectangle copies performed. -/
def copyUntiledImageToTiledImage (st : TiledImageState) (roi : RectI) (nThreads : Nat) :
    List (TileCoord × RectI) × ActionRetCodeEnum :=
  ((if (getTilesCoordinates st roi).isNull then []
    else (launchThreadsUntiledToTiled st.tiles roi
      (tileIndicesOf (getTilesCoordinates st roi) st.tileSizeX st.tileSizeY) nThreads).2),
   ActionRetCodeEnum.eActionStatusOK)

/-- The status launchThreads hands back inside
copyUntiledImageToTiledImage, which line 610 discards with (void)stat. -/
def copyUntiledDiscardedStat (st : TiledImageState) (roi : RectI) (nThreads : Nat) :
    ActionRetCodeEnum :=
  if (getTilesCoordinates st roi).isNull then ActionRetCodeEnum.eActionStatusOK
  else (launchThreadsUntiledToTiled st.tiles roi
    (tileIndicesOf (getTilesCoordinates st roi) st.tileSizeX st.tileSizeY) nThreads).1

/-- The C8 counterexample image state: boundsRoundedToTile spans two
2x2 tile cells but the tile map holds only the tile at (0,0) — the
coordinate (2,0) is missing (the internal-consistency violation the
spec names). -/
def c8BrokenState : TiledImageState :=
  { tiles := [({ tx := 0, ty := 0 }, { x1 := 0, y1 := 0, x2 := 2, y2 := 2 })]
    tileSizeX := 2
    tileSizeY := 2
    boundsRoundedToTile := { x1 := 0, y1 := 0, x2 := 4, y2 := 2 } }

/-- The region of interest of the C8 counterexample. -/
def c8Roi : RectI := { x1 := 0, y1 := 0, x2 := 4, y2 := 2 }

/-- The tile bounds computed at lines 63-66 of ImagePrivate.cpp for a
mono-channel-tiled image: the nominal grid cell of the coordinate
clipped to the image's original bounds by the componentwise max/min the
source writes out. -/
def tileBoundsOf (originalBounds : RectI) (tileSizeX tileSizeY : Int) (c : TileCoord) :
    RectI :=
  { x1 := max c.tx originalBounds.x1
    y1 := max c.ty originalBounds.y1
    x2 := min (c.tx + tileSizeX) originalBounds.x2
    y2 := min (c.ty + tileSizeY) originalBounds.y2 }

/-- Modelled from the spec: the tile map of a mono-channel-tiled image
is populated eagerly over the grid of cells aligned to multiples of the
tile size (the coordinates enumerated by getTilesCoordinates and the
copy loops all step by the tile size from bounds rounded to tile-size
multiples). -/
def isGridCoord (tileSizeX tileSizeY : Int) (c : TileCoord) : Prop :=
  tileSizeX ∣ c.tx ∧ tileSizeY ∣ c.ty

end NatronImage

namespace NatronImage

theorem listFirstHit_none_stop (cached : LookupKey → Bool) (xs : List LookupKey)
    (h : listFirstHit cached xs = none) : stopAtFirstHit cached xs = xs := by
  induction xs with
  | nil => rfl
  | cons k ks ih =>
    by_cases hk : cached k
    · simp [listFirstHit, hk] at h
    · simp [listFirstHit, hk] at h
      simp [stopAtFirstHit, hk, ih h]

theorem stopAtFirstHit_append_of_none (cached : LookupKey → Bool) (xs ys : List LookupKey)
    (h : listFirstHit cached xs = none) :
    stopAtFirstHit cached (xs ++ ys) = xs ++ stopAtFirstHit cached ys := by
  induction xs with
  | nil => rfl
  | cons k ks ih =>
    by_cases hk : cached k
    · simp [listFirstHit, hk] at h
    · simp [listFirstHit, hk] at h
      simp [stopAtFirstHit, hk, ih h]

theorem listFirstHit_append_of_none (cached : LookupKey → Bool) (xs ys : List LookupKey)
    (h : listFirstHit cached xs = none) :
    listFirstHit cached (xs ++ ys) = listFirstHit cached ys := by
  induction xs with
  | nil => rfl
  | cons k ks ih =>
    by_cases hk : cached k
    · simp [listFirstHit, hk] at h
    · simp [listFirstHit, hk] at h
      simp [listFirstHit, hk, ih h]

theorem stopAtFirstHit_append_of_hit (cached : LookupKey → Bool) (xs ys : List LookupKey)
    (k : LookupKey) (h : listFirstHit cached xs = some k) :
    stopAtFirstHit cached (xs ++ ys) = stopAtFirstHit cached xs := by
  induction xs with
  | nil => simp [listFirstHit] at h
  | cons a as ih =>
    by_cases ha : cached a
    · simp [stopAtFirstHit, ha]
    · simp [listFirstHit, ha] at h
      simp [stopAtFirstHit, ha, ih h]

theorem listFirstHit_append_of_hit (cached : LookupKey → Bool) (xs ys : List LookupKey)
    (k : LookupKey) (h : listFirstHit cached xs = some k) :
    listFirstHit cached (xs ++ ys) = some k := by
  induction xs with
  | nil => simp [listFirstHit] at h
  | cons a as ih =>
    by_cases ha : cached a
    · simp [listFirstHit, ha] at h
      subst h
      simp [listFirstHit, ha]
    · simp [listFirstHit, ha] at h
      simp [listFirstHit, ha, ih h]

theorem draftLoop_eq (cached : LookupKey → Bool) (l : Nat) (drafts : List Bool) :
    draftLoop cached l drafts
      = (stopAtFirstHit cached (drafts.map (fun d => (l, d))),
         listFirstHit cached (drafts.map (fun d => (l, d)))) := by
  induction drafts with
  | nil => rfl
  | cons d ds ih =>
    by_cases hd : cached (l, d)
    · simp [draftLoop, hd, stopAtFirstHit, listFirstHit]
    · simp [draftLoop, hd, stopAtFirstHit, listFirstHit, ih]

theorem mipLoop_eq (cached : LookupKey → Bool) (drafts : List Bool) (levels : List Nat) :
    mipLoop cached drafts levels
      = (stopAtFirstHit cached (flatKeys levels drafts),
         listFirstHit cached (flatKeys levels drafts)) := by
  induction levels with
  | nil => rfl
  | cons l ls ih =>
    have hflat : flatKeys (l :: ls) drafts
        = drafts.map (fun d => (l, d)) ++ flatKeys ls drafts := by
      simp [flatKeys]
    rw [hflat]
    cases hh : listFirstHit cached (drafts.map (fun d => (l, d))) with
    | none =>
      rw [stopAtFirstHit_append_of_none cached _ _ hh,
          listFirstHit_append_of_none cached _ _ hh]
      simp [mipLoop, draftLoop_eq, hh, ih]
      exact listFirstHit_none_stop cached _ hh
    | some k =>
      rw [stopAtFirstHit_append_of_hit cached _ _ k hh,
          listFirstHit_append_of_hit cached _ _ k hh]
      simp [mipLoop, draftLoop_eq, hh]

end NatronImage

namespace NatronImage

theorem flatKeys_cpu_eq_claimed (storage : StorageModeEnum) (mipMapLevel : Nat)
    (isDraftImage : Bool)
    (h : storage = StorageModeEnum.eStorageModeRAM ∨ storage = StorageModeEnum.eStorageModeDisk) :
    flatKeys (lookupMipLevels storage mipMapLevel) (lookupDrafts isDraftImage)
      = claimedLookupOrder mipMapLevel isDraftImage := by
  rcases h with rfl | rfl <;>
    by_cases hL : mipMapLevel = 0 <;>
      cases isDraftImage <;>
        simp [flatKeys, lookupMipLevels, lookupDrafts, nMipMapLookups, nDraftLookups,
          firstLookupLevel, claimedLookupOrder, hL, List.range_succ]

/-- C1: for a RAM- or disk-backed tile channel with caching enabled, the
fallback lookup of initTileAndFetchFromCache probes cache keys in exactly
the order (requested level, draft=false), then (requested level,
draft=true) only if the image is draft, then (0, false) only if the
requested level is nonzero, then (0, true) only if the image is draft,
stopping at the first hit; the mip level is the outer loop and the draft
flag the inner loop, with nMipMapLookups = 2 iff mipMapLevel is nonzero
and nDraftLookups = 2 iff isDraftImage. -/
theorem c1_lookup_order (storage : StorageModeEnum) (mipMapLevel : Nat) (isDraftImage : Bool)
    (h : storage = StorageModeEnum.eStorageModeRAM ∨ storage = StorageModeEnum.eStorageModeDisk) :
    flatKeys (lookupMipLevels storage mipMapLevel) (lookupDrafts isDraftImage)
        = claimedLookupOrder mipMapLevel isDraftImage
    ∧ nMipMapLookups storage mipMapLevel = (if mipMapLevel ≠ 0 then 2 else 1)
    ∧ nDraftLookups isDraftImage = (if isDraftImage then 2 else 1)
    ∧ ∀ cached : LookupKey → Bool,
        (lookupProbeTrace storage mipMapLevel isDraftImage cached).1
            = stopAtFirstHit cached (claimedLookupOrder mipMapLevel isDraftImage)
        ∧ (lookupProbeTrace storage mipMapLevel isDraftImage cached).2
            = listFirstHit cached (claimedLookupOrder mipMapLevel isDraftImage) := by
  have hcand := flatKeys_cpu_eq_claimed storage mipMapLevel isDraftImage h
  refine ⟨hcand, ?_, ?_, ?_⟩
  · rcases h with rfl | rfl <;> simp [nMipMapLookups]
  · simp [nDraftLookups]
  · intro cached
    rw [lookupProbeTrace, mipLoop_eq, hcand]
    exact ⟨rfl, rfl⟩

/-- C1 witness: the lookup-order theorem applied at storage = RAM,
mipMapLevel = 2, isDraftImage = true. -/
theorem c1_lookup_order_witness :
    (StorageModeEnum.eStorageModeRAM = StorageModeEnum.eStorageModeRAM
        ∨ StorageModeEnum.eStorageModeRAM = StorageModeEnum.eStorageModeDisk)
    ∧ (flatKeys (lookupMipLevels StorageModeEnum.eStorageModeRAM 2) (lookupDrafts true)
          = claimedLookupOrder 2 true
        ∧ nMipMapLookups StorageModeEnum.eStorageModeRAM 2 = (if (2 : Nat) ≠ 0 then 2 else 1)
        ∧ nDraftLookups true = (if true then 2 else 1)
        ∧ ∀ cached : LookupKey → Bool,
            (lookupProbeTrace StorageModeEnum.eStorageModeRAM 2 true cached).1
                = stopAtFirstHit cached (claimedLookupOrder 2 true)
            ∧ (lookupProbeTrace StorageModeEnum.eStorageModeRAM 2 true cached).2
                = listFirstHit cached (claimedLookupOrder 2 true)) :=
  ⟨Or.inl rfl, c1_lookup_order StorageModeEnum.eStorageModeRAM 2 true (Or.inl rfl)⟩

/-- C2 counterexample: for a GPU-texture tile channel requested at mip
level 1, the single cache lookup is made at mip level 0, not at the
requested mip level 1 as the claim states (firstLookupLevel is set to 0
for non-CPU storage at lines 184-186). -/
theorem c2_exact_level_counterexample :
    (lookupProbeTrace StorageModeEnum.eStorageModeGLTex 1 false (fun _ => false)).1
        = [((0 : Nat), false)]
    ∧ (lookupProbeTrace StorageModeEnum.eStorageModeGLTex 1 false (fun _ => false)).1
        ≠ [((1 : Nat), false)] := by
  decide

/-- C2 amended: for a tile channel whose storage is neither RAM nor disk
(GPU texture), initTileAndFetchFromCache performs exactly one cache
lookup per draft candidate, and that lookup is always made at mip level
0 (full resolution), regardless of the mip level that was requested; no
second mip level is probed. -/
theorem c2_level_zero_lookup (storage : StorageModeEnum) (mipMapLevel : Nat) (isDraftImage : Bool)
    (h : storage ≠ StorageModeEnum.eStorageModeRAM ∧ storage ≠ StorageModeEnum.eStorageModeDisk) :
    nMipMapLookups storage mipMapLevel = 1
    ∧ firstLookupLevel storage mipMapLevel = 0
    ∧ flatKeys (lookupMipLevels storage mipMapLevel) (lookupDrafts isDraftImage)
        = claimedOrderGPU isDraftImage
    ∧ ∀ cached : LookupKey → Bool,
        (lookupProbeTrace storage mipMapLevel isDraftImage cached).1
            = stopAtFirstHit cached (claimedOrderGPU isDraftImage)
        ∧ (lookupProbeTrace storage mipMapLevel isDraftImage cached).2
            = listFirstHit cached (claimedOrderGPU isDraftImage) := by
  have hcand : flatKeys (lookupMipLevels storage mipMapLevel) (lookupDrafts isDraftImage)
      = claimedOrderGPU isDraftImage := by
    cases isDraftImage <;>
      simp [flatKeys, lookupMipLevels, lookupDrafts, nMipMapLookups, nDraftLookups,
        firstLookupLevel, claimedOrderGPU, h, List.range_succ]
  refine ⟨by simp [nMipMapLookups, h], by simp [firstLookupLevel, h], hcand, ?_⟩
  intro cached
  rw [lookupProbeTrace, mipLoop_eq, hcand]
  exact ⟨rfl, rfl⟩

/-- C2 amended witness: the level-zero lookup theorem applied at
storage = GL texture, mipMapLevel = 3, isDraftImage = true. -/
theorem c2_level_zero_lookup_witness :
    (StorageModeEnum.eStorageModeGLTex ≠ StorageModeEnum.eStorageModeRAM
        ∧ StorageModeEnum.eStorageModeGLTex ≠ StorageModeEnum.eStorageModeDisk)
    ∧ (nMipMapLookups StorageModeEnum.eStorageModeGLTex 3 = 1
        ∧ firstLookupLevel StorageModeEnum.eStorageModeGLTex 3 = 0
        ∧ flatKeys (lookupMipLevels StorageModeEnum.eStorageModeGLTex 3) (lookupDrafts true)
            = claimedOrderGPU true
        ∧ ∀ cached : LookupKey → Bool,
            (lookupProbeTrace StorageModeEnum.eStorageModeGLTex 3 true cached).1
                = stopAtFirstHit cached (claimedOrderGPU true)
            ∧ (lookupProbeTrace StorageModeEnum.eStorageModeGLTex 3 true cached).2
                = listFirstHit cached (claimedOrderGPU true)) :=
  ⟨by decide, c2_level_zero_lookup StorageModeEnum.eStorageModeGLTex 3 true (by decide)⟩

end NatronImage

namespace NatronImage

/-- C3: for a RAM/disk tile channel whose cache lookup misses at the
requested mip level L > 0 (for every draft flag probed) but hits at mip
level 0, initTileAndFetchFromCache produces the buffer obtained by
applying the halve downscale kernel L = firstLookupLevel - lookupLevel
times to the level-0 cached data. -/
theorem c3_downscale_from_level0 (storage : StorageModeEnum) (mipMapLevel : Nat)
    (isDraftImage : Bool) (nComps : Nat) (cachedAt : LookupKey → Option TileBuffer)
    (buf : TileBuffer)
    (hs : storage = StorageModeEnum.eStorageModeRAM
        ∨ storage = StorageModeEnum.eStorageModeDisk)
    (hL : mipMapLevel ≠ 0)
    (hmiss : ∀ d, cachedAt (mipMapLevel, d) = none)
    (hhit : cachedAt (0, false) = some buf) :
    fetchTileResult storage mipMapLevel isDraftImage nComps cachedAt
      = some ((halveTileBuffer nComps)^[mipMapLevel] buf) := by
  have hL0 : ¬((0 : Nat) = mipMapLevel) := fun hc => hL hc.symm
  have hcand := flatKeys_cpu_eq_claimed storage mipMapLevel isDraftImage hs
  have htrace : (lookupProbeTrace storage mipMapLevel isDraftImage
      (fun k => (cachedAt k).isSome)).2 = some ((0 : Nat), false) := by
    rw [lookupProbeTrace, mipLoop_eq, hcand]
    cases isDraftImage <;>
      simp [claimedLookupOrder, hL, listFirstHit, hmiss, hhit]
  rcases hs with rfl | rfl <;>
    simp [fetchTileResult, htrace, hhit, firstLookupLevel, hL0, downscaleMipMap]

/-- C3 witness: the downscale theorem applied at storage = disk,
mipMapLevel = 1, isDraftImage = false, one component, with a cache
holding only the level-0 tile demoLevel0Buf. -/
theorem c3_downscale_from_level0_witness :
    (StorageModeEnum.eStorageModeDisk = StorageModeEnum.eStorageModeRAM
        ∨ StorageModeEnum.eStorageModeDisk = StorageModeEnum.eStorageModeDisk)
    ∧ (1 : Nat) ≠ 0
    ∧ (∀ d, demoCacheAt (1, d) = none)
    ∧ demoCacheAt (0, false) = some demoLevel0Buf
    ∧ fetchTileResult StorageModeEnum.eStorageModeDisk 1 false 1 demoCacheAt
        = some ((halveTileBuffer 1)^[1] demoLevel0Buf) :=
  ⟨Or.inr rfl, by decide, fun d => by cases d <;> rfl, rfl,
    c3_downscale_from_level0 StorageModeEnum.eStorageModeDisk 1 false 1 demoCacheAt
      demoLevel0Buf (Or.inr rfl) (by decide) (fun d => by cases d <;> rfl) rfl⟩

/-- C5: the specification's own halve example fails on the code.
Halving the 3x3 constant byte source of value 4 into a 2x2 destination
yields 4 and 4 on the first destination row, but 2 (and not 4) at
destination pixel (0,1): after each scan line the code adds
srcRowElementsCount * 2 - dstWidth * srcPixelStride to each source
pointer (line 839) although the pixel loop advanced it by
dstWidth * srcPixelStride * 2, so from the second row on the source
pointers sit dstWidth * srcPixelStride elements too far and the kernel
averages the wrong samples, including reads past the allocated
source. -/
theorem c5_halve_code_bug :
    ((halveImageForInternalN 1 halveExampleSrc
        { x1 := 0, y1 := 0, x2 := 3, y2 := 3 } (fun _ => 0)
        { x1 := 0, y1 := 0, x2 := 2, y2 := 2 }) 0 = 4
      ∧ (halveImageForInternalN 1 halveExampleSrc
        { x1 := 0, y1 := 0, x2 := 3, y2 := 3 } (fun _ => 0)
        { x1 := 0, y1 := 0, x2 := 2, y2 := 2 }) 1 = 4)
    ∧ (halveImageForInternalN 1 halveExampleSrc
        { x1 := 0, y1 := 0, x2 := 3, y2 := 3 } (fun _ => 0)
        { x1 := 0, y1 := 0, x2 := 2, y2 := 2 }) 2 = 2
    ∧ (halveImageForInternalN 1 halveExampleSrc
        { x1 := 0, y1 := 0, x2 := 3, y2 := 3 } (fun _ => 0)
        { x1 := 0, y1 := 0, x2 := 2, y2 := 2 }) 2 ≠ 4 := by
  decide

end NatronImage

namespace NatronImage

/-- C4: the NaN scan fails on the code.  Over the one-row region
[0,2) x [0,1) of a mono-channel float buffer holding (0.0, NaN), the
claim requires the NaN at offset 1 to be replaced by 1.0 and the scan
to return true; but because the pointer advance of line 918 sits inside
the NaN branch, a channel pointer never moves past a non-NaN sample:
the scan re-reads offset 0 for every column, returns false, and leaves
the NaN in place. -/
theorem c4_nan_scan_code_bug :
    (checkForNaNsInternalN 1
        { x1 := 0, y1 := 0, x2 := 2, y2 := 1 }
        { x1 := 0, y1 := 0, x2 := 2, y2 := 1 } nanExampleMem).1 = false
    ∧ (checkForNaNsInternalN 1
        { x1 := 0, y1 := 0, x2 := 2, y2 := 1 }
        { x1 := 0, y1 := 0, x2 := 2, y2 := 1 } nanExampleMem).2 1 = FloatVal.nan := by
  decide

end NatronImage

namespace NatronImage

/-- C6: for a tile channel initialized with cachePolicy WriteOnly, if a
cache entry already exists at the exact requested key, the write-only
pre-step of lines 167-174 removes it, so an immediately subsequent
probe for that exact key reports must-compute rather than cached. -/
theorem c6_write_only_forces_recompute (cache : CacheModel) (key : ImageTileKey)
    (h : key ∈ cache.entries) :
    (writeOnlyRemoveStep CacheAccessModeEnum.eCacheAccessModeWriteOnly cache key).probeStatus key
      = CacheEntryStatusEnum.eCacheEntryStatusMustCompute := by
  simp [writeOnlyRemoveStep, CacheModel.probeStatus, CacheModel.removeEntry, h,
    Finset.not_mem_erase]

/-- C6 witness: the write-only removal theorem applied to a cache whose
only entry is demoTileKey. -/
theorem c6_write_only_forces_recompute_witness :
    demoTileKey ∈ (CacheModel.mk {demoTileKey}).entries
    ∧ (writeOnlyRemoveStep CacheAccessModeEnum.eCacheAccessModeWriteOnly
        (CacheModel.mk {demoTileKey}) demoTileKey).probeStatus demoTileKey
      = CacheEntryStatusEnum.eCacheEntryStatusMustCompute :=
  ⟨Finset.mem_singleton_self demoTileKey,
    c6_write_only_forces_recompute (CacheModel.mk {demoTileKey}) demoTileKey
      (Finset.mem_singleton_self demoTileKey)⟩

/-- C7: for every tile channel processed by insertTilesInCache, a
channel with no outstanding entry locker is skipped unchanged with no
insertion; a channel with a locker is inserted into the cache iff the
locker status is must-compute, the buffer is allocated and the render
was not aborted; and after the attempt the locker is cleared iff the
status is not computation-pending. -/
theorem c7_insert_tiles_protocol (renderAborted alloc : Bool)
    (locker : Option CacheEntryStatusEnum) :
    insertChannelInCache renderAborted
        { entryLocker := none, bufferAllocated := alloc }
      = ({ entryLocker := none, bufferAllocated := alloc }, false)
    ∧ (∀ status : CacheEntryStatusEnum,
        ((insertChannelInCache renderAborted
            { entryLocker := some status, bufferAllocated := alloc }).2 = true
          ↔ status = CacheEntryStatusEnum.eCacheEntryStatusMustCompute
              ∧ alloc = true ∧ renderAborted = false)
        ∧ ((insertChannelInCache renderAborted
            { entryLocker := some status, bufferAllocated := alloc }).1.entryLocker = none
          ↔ status ≠ CacheEntryStatusEnum.eCacheEntryStatusComputationPending)
        ∧ (insertChannelInCache renderAborted
            { entryLocker := some status, bufferAllocated := alloc }).1.bufferAllocated
            = alloc)
    ∧ insertTilesInCache renderAborted [[{ entryLocker := locker, bufferAllocated := alloc }]]
        = [[insertChannelInCache renderAborted
            { entryLocker := locker, bufferAllocated := alloc }]] := by
  refine ⟨rfl, ?_, rfl⟩
  intro status
  cases status <;> cases alloc <;> cases renderAborted <;>
    simp [insertChannelInCache]

/-- C10: the claim that the cachedBuffer handle is non-null for every
storage kind fails on the code: the allocation switch of lines 102-141
resets cachedBuffer only in the disk branch, so for RAM and GL-texture
storage with a cache policy other than None, the setKey call of line
164 dereferences a null pointer (and the code's own
assert(cachedBuffer) of line 215 fails). -/
theorem c10_cached_buffer_code_bug :
    cachedBufferAfterAlloc StorageModeEnum.eStorageModeRAM = none
    ∧ cachedBufferAfterAlloc StorageModeEnum.eStorageModeGLTex = none
    ∧ cachedBufferAfterAlloc StorageModeEnum.eStorageModeDisk ≠ none
    ∧ setRequestedScaleKey CacheAccessModeEnum.eCacheAccessModeReadWrite
        (cachedBufferAfterAlloc StorageModeEnum.eStorageModeRAM) demoTileKey
        = SetKeyOutcome.nullPointerDeref
    ∧ setRequestedScaleKey CacheAccessModeEnum.eCacheAccessModeWriteOnly
        (cachedBufferAfterAlloc StorageModeEnum.eStorageModeGLTex) demoTileKey
        = SetKeyOutcome.nullPointerDeref
    ∧ setRequestedScaleKey CacheAccessModeEnum.eCacheAccessModeReadWrite
        (cachedBufferAfterAlloc StorageModeEnum.eStorageModeDisk) demoTileKey
        ≠ SetKeyOutcome.nullPointerDeref := by
  decide

end NatronImage

namespace NatronImage

theorem processTileRange_failed_iff (tiles : TileMapModel) (roi : RectI)
    (coords : List TileCoord) :
    (processTileRange tiles roi coords).1 = ActionRetCodeEnum.eActionStatusFailed
      ↔ ∃ c ∈ coords, findTile tiles c = none := by
  induction coords with
  | nil => simp [processTileRange]
  | cons c cs ih =>
    cases hf : findTile tiles c with
    | none => simp [processTileRange, hf]
    | some tb => simp [processTileRange, hf, ih]

/-- C8 counterexample: on an image state whose tile map is missing the
coordinate (2,0) that its tile rectangle enumerates, the single worker
partition detects the missing tile and returns eActionStatusFailed, yet
copyUntiledImageToTiledImage returns normally with the OK outcome the
caller observes — the launchThreads status is discarded by the
(void)stat cast of line 610, so the copy does not terminate with a
failure status as the claim states. -/
theorem c8_failure_discarded_counterexample :
    copyUntiledDiscardedStat c8BrokenState c8Roi 1 = ActionRetCodeEnum.eActionStatusFailed
    ∧ (copyUntiledImageToTiledImage c8BrokenState c8Roi 1).2
        = ActionRetCodeEnum.eActionStatusOK
    ∧ (copyUntiledImageToTiledImage c8BrokenState c8Roi 1).1
        = [({ tx := 0, ty := 0 }, { x1 := 0, y1 := 0, x2 := 2, y2 := 2 })] := by
  decide

/-- C8 amended: a worker partition that meets a tile coordinate missing
from the tile map stops processing its remaining tiles and
multiThreadFunction reports eActionStatusFailed (and a partition fails
exactly when its slice holds such a coordinate); but
copyUntiledImageToTiledImage discards the aggregated launchThreads
status ((void)stat, line 610) and returns void, so the failure is not
propagated to the caller of the copy: the caller-observable outcome is
OK on every input. -/
theorem c8_partition_failure_detected_not_propagated :
    (∀ (tiles : TileMapModel) (roi : RectI) (coords : List TileCoord),
        ((processTileRange tiles roi coords).1 = ActionRetCodeEnum.eActionStatusFailed
          ↔ ∃ c ∈ coords, findTile tiles c = none))
    ∧ (∀ (tiles : TileMapModel) (roi : RectI) (tileIndices : List TileCoord)
        (threadID nThreads : Nat),
        ((multiThreadFunctionUntiledToTiled tiles roi tileIndices threadID nThreads).1
            = ActionRetCodeEnum.eActionStatusFailed
          ↔ ∃ c ∈ (tileIndices.drop
                (getThreadRange threadID nThreads tileIndices.length).1).take
                ((getThreadRange threadID nThreads tileIndices.length).2
                  - (getThreadRange threadID nThreads tileIndices.length).1),
              findTile tiles c = none))
    ∧ ∀ (st : TiledImageState) (roi : RectI) (nThreads : Nat),
        (copyUntiledImageToTiledImage st roi nThreads).2
          = ActionRetCodeEnum.eActionStatusOK := by
  refine ⟨processTileRange_failed_iff, ?_, fun st roi nThreads => rfl⟩
  intro tiles roi tileIndices threadID nThreads
  by_cases h : (getThreadRange threadID nThreads tileIndices.length).2
      ≤ (getThreadRange threadID nThreads tileIndices.length).1
  · have hz : (getThreadRange threadID nThreads tileIndices.length).2
        - (getThreadRange threadID nThreads tileIndices.length).1 = 0 :=
      Nat.sub_eq_zero_of_le h
    simp [multiThreadFunctionUntiledToTiled, h, hz]
  · simp [multiThreadFunctionUntiledToTiled, h, processTileRange_failed_iff]

end NatronImage

namespace NatronImage

theorem grid_slot_mem (ts v : Int) (hts : 0 < ts) :
    ts ∣ (v - v % ts) ∧ v - v % ts ≤ v ∧ v < (v - v % ts) + ts := by
  have h1 := Int.ediv_add_emod v ts
  have h2 := Int.emod_nonneg v (ne_of_gt hts)
  have h3 := Int.emod_lt_of_pos v hts
  exact ⟨⟨v / ts, by linarith⟩, by omega, by omega⟩

theorem grid_slot_unique (ts a v : Int) (_hts : 0 < ts) (hdvd : ts ∣ a)
    (h1 : a ≤ v) (h2 : v < a + ts) : a = v - v % ts := by
  obtain ⟨k, hk⟩ := hdvd
  have he : (v - a) % ts = v - a :=
    Int.emod_eq_of_lt (by omega) (by omega)
  have hva : (v - a) + ts * k = v := by rw [← hk]; ring
  have hmod : v % ts = v - a := by
    calc v % ts = ((v - a) + ts * k) % ts := by rw [hva]
      _ = (v - a) % ts := Int.add_mul_emod_self_left (v - a) ts k
      _ = v - a := he
  omega

/-- C9: for a mono-channel-tiled image, each tile's tileBounds equals
the intersection of its nominal grid cell with originalBounds (lines
63-66), and the grid-aligned tiles partition originalBounds: every
pixel of originalBounds lies in the tileBounds of exactly one
grid-aligned coordinate, so the union of the tileBounds covers
originalBounds with no gaps and no overlaps, edge tiles being clipped
below the nominal tile size. -/
theorem c9_tile_partition (originalBounds : RectI) (tileSizeX tileSizeY : Int)
    (hx : 0 < tileSizeX) (hy : 0 < tileSizeY) :
    (∀ c : TileCoord,
        tileBoundsOf originalBounds tileSizeX tileSizeY c
          = (RectI.mk c.tx c.ty (c.tx + tileSizeX) (c.ty + tileSizeY)).intersect
              originalBounds)
    ∧ ∀ x y : Int, originalBounds.containsPt x y = true →
        ∃! c : TileCoord, isGridCoord tileSizeX tileSizeY c
            ∧ (tileBoundsOf originalBounds tileSizeX tileSizeY c).containsPt x y = true := by
  constructor
  · intro c; rfl
  · intro x y hxy
    simp only [RectI.containsPt, decide_eq_true_eq] at hxy
    obtain ⟨hbx1, hbx2, hby1, hby2⟩ := hxy
    obtain ⟨hdx, hx1, hx2⟩ := grid_slot_mem tileSizeX x hx
    obtain ⟨hdy, hy1, hy2⟩ := grid_slot_mem tileSizeY y hy
    refine ⟨{ tx := x - x % tileSizeX, ty := y - y % tileSizeY }, ⟨⟨hdx, hdy⟩, ?_⟩, ?_⟩
    · simp only [tileBoundsOf, RectI.containsPt, decide_eq_true_eq]
      exact ⟨max_le hx1 hbx1, lt_min hx2 hbx2, max_le hy1 hby1, lt_min hy2 hby2⟩
    · rintro ⟨tx2, ty2⟩ ⟨⟨hd2x, hd2y⟩, hmem⟩
      simp only [tileBoundsOf, RectI.containsPt, decide_eq_true_eq] at hmem
      obtain ⟨hm1, hm2, hm3, hm4⟩ := hmem
      have e1 := grid_slot_unique tileSizeX tx2 x hx hd2x
        (le_of_max_le_left hm1) (lt_of_lt_of_le hm2 (min_le_left _ _))
      have e2 := grid_slot_unique tileSizeY ty2 y hy hd2y
        (le_of_max_le_left hm3) (lt_of_lt_of_le hm4 (min_le_left _ _))
      rw [e1, e2]

/-- C9 witness: the tile-partition theorem applied to the bounds
[0,5) x [0,3) with 2x2 tiles, a grid with clipped edge tiles. -/
theorem c9_tile_partition_witness :
    (0 : Int) < 2 ∧ (0 : Int) < 2
    ∧ ((∀ c : TileCoord,
        tileBoundsOf (RectI.mk 0 0 5 3) 2 2 c
          = (RectI.mk c.tx c.ty (c.tx + 2) (c.ty + 2)).intersect (RectI.mk 0 0 5 3))
      ∧ ∀ x y : Int, (RectI.mk 0 0 5 3).containsPt x y = true →
          ∃! c : TileCoord, isGridCoord 2 2 c
              ∧ (tileBoundsOf (RectI.mk 0 0 5 3) 2 2 c).containsPt x y = true) :=
  ⟨by decide, by decide, c9_tile_partition (RectI.mk 0 0 5 3) 2 2 (by decide) (by decide)⟩

end NatronImage
